import Mathlib

/-!
Verification of the graph-explorer repository's data-to-graph pipeline.

The definitions below are a shallow embedding of the current
`GraphVisualization` component (the graph-build effect, the file-upload
handler, the simulation tick clamp and the node-fill accessor).  Rows are
JS objects produced by the CSV decoder with `dynamicTyping`, modelled as
insertion-ordered association lists with distinct keys; scalar cell values
are modelled by `JsValue` (numbers restricted to integers, which is all the
claims need).
-/

namespace GV

/-- A scalar cell value as produced by the CSV decoder with dynamic typing.
`null` also stands for JS `undefined` (an absent field); both are falsy and
are never stringified on any reachable path of the embedded code. -/
inductive JsValue where
  | null
  | str (s : String)
  | num (n : Int)
  | bool (b : Bool)
deriving DecidableEq, Repr

/-- JS truthiness of a cell value. -/
def JsValue.truthy : JsValue → Bool
  | .null => false
  | .str s => s != ""
  | .num n => n != 0
  | .bool b => b

/-- JS `String(v)` coercion. -/
def JsValue.toStr : JsValue → String
  | .null => "null"
  | .str s => s
  | .num n => toString n
  | .bool b => if b then "true" else "false"

/-- A data row: a JS object, i.e. an insertion-ordered map from column
names to values (keys are distinct in every object the parser produces). -/
abbrev Row := List (String × JsValue)

/-- `Object.keys(row)`: the field names in insertion order. -/
def Row.keys (r : Row) : List String := r.map Prod.fst

/-- `row[col]` where `col` may be `undefined` (`none`): an absent column or
an absent field reads as `undefined`, modelled by `JsValue.null`. -/
def getField (r : Row) (col : Option String) : JsValue :=
  match col with
  | none => .null
  | some key => (r.lookup key).getD .null

/-- `row[col] ? String(row[col]) : ""` — the source/target cell read. -/
def coerceCell (v : JsValue) : String := if v.truthy then v.toStr else ""

/-- `row[edgeCol] ? String(row[edgeCol]) : 'default'` — the type cell read. -/
def edgeTypeOf (v : JsValue) : String := if v.truthy then v.toStr else "default"

/-- `s.charCodeAt(0)`: the first UTF-16 code unit (high surrogate for
astral code points); the embedded code only applies it to non-empty ids. -/
def charCodeAt0 (s : String) : Nat :=
  match s.data with
  | [] => 0
  | c :: _ => if c.toNat < 65536 then c.toNat else 55296 + (c.toNat - 65536) / 1024

/-- `charCode(id[0]) % 5 + 1`, the group bucket of a node id. -/
def groupOf (id : String) : Nat := charCodeAt0 id % 5 + 1

/-- A graph node `{ id, group }`. -/
structure Node where
  id : String
  group : Nat
deriving DecidableEq, Repr

/-- A graph link `{ source, target, type, value }` (`value` is the weight). -/
structure Link where
  source : String
  target : String
  type : String
  value : Nat
deriving DecidableEq, Repr

/-- The GraphModel published by the build effect: `{ nodes, links }`. -/
structure GraphData where
  nodes : List Node
  links : List Link
deriving DecidableEq, Repr

/-- The three column-selection states (`''` = unset, as in the component). -/
structure Mapping where
  sourceColumn : String
  targetColumn : String
  edgeTypeColumn : String
deriving DecidableEq, Repr

/-- `Object.keys(data[0] || {})`. -/
def colNamesOf (data : List Row) : List String := ((data.head?).map Row.keys).getD []

/-- The resolved `(srcCol, edgeCol, tgtCol)` triple:
`sourceColumn || colNames[0]`, `edgeTypeColumn || colNames[1]`,
`targetColumn || colNames[2]` (`none` models `undefined`). -/
def resolveCols (data : List Row) (m : Mapping) : Option String × Option String × Option String :=
  let colNames := colNamesOf data
  (if m.sourceColumn != "" then some m.sourceColumn else colNames[0]?,
   if m.edgeTypeColumn != "" then some m.edgeTypeColumn else colNames[1]?,
   if m.targetColumn != "" then some m.targetColumn else colNames[2]?)

/-- The resolved source column. -/
def resolvedSrc (data : List Row) (m : Mapping) : Option String := (resolveCols data m).1

/-- The resolved edge-type column. -/
def resolvedEdge (data : List Row) (m : Mapping) : Option String := (resolveCols data m).2.1

/-- The resolved target column. -/
def resolvedTgt (data : List Row) (m : Mapping) : Option String := (resolveCols data m).2.2

/-- The link a row contributes when it is not dropped. -/
def mkLink (srcCol edgeCol tgtCol : Option String) (r : Row) : Link :=
  { source := coerceCell (getField r srcCol)
    target := coerceCell (getField r tgtCol)
    type := edgeTypeOf (getField r edgeCol)
    value := 1 }

/-- The drop rule: a row is kept iff both coerced cells are non-empty
(`if (!source || !target) return;`). -/
def keepRow (srcCol tgtCol : Option String) (r : Row) : Bool :=
  coerceCell (getField r srcCol) != "" && coerceCell (getField r tgtCol) != ""

/-- `if (!nodeMap.has(id)) nodeMap.set(id, { id, group: charCode(id[0]) % 5 + 1 })`,
on the insertion-ordered map viewed as a list. -/
def insertNode (ns : List Node) (id : String) : List Node :=
  if ns.any (fun n => n.id == id) then ns else ns ++ [⟨id, groupOf id⟩]

/-- The node record inserted for a fresh id. -/
def mkNode (id : String) : Node := ⟨id, groupOf id⟩

/-- The body of `data.forEach(row => ...)` acting on `(nodeMap, links)`. -/
def step (srcCol edgeCol tgtCol : Option String) (acc : List Node × List Link) (r : Row) :
    List Node × List Link :=
  let source := coerceCell (getField r srcCol)
  let target := coerceCell (getField r tgtCol)
  let edgeType := edgeTypeOf (getField r edgeCol)
  if source == "" || target == "" then acc
  else (insertNode (insertNode acc.1 source) target,
        acc.2 ++ [{ source := source, target := target, type := edgeType, value := 1 }])

/-- The exact column-count error message of the build effect. -/
def columnCountErrorMsg : String :=
  "Data must have at least 3 columns for default behavior (source, edge type, destination)"

/-- `!firstRow || Object.keys(firstRow).length < 3` for `firstRow = data[0]`. -/
def defaultGuardFails (data : List Row) : Bool :=
  match data.head? with
  | none => true
  | some r => decide (r.keys.length < 3)

/-- The graph-build effect: default-mode guard, column resolution, then the
row fold; `.error` models `setError` + early return (no GraphModel
published), `.ok` models `setGraphData`. -/
def buildGraph (data : List Row) (m : Mapping) : Except String GraphData :=
  if (m.sourceColumn == "" && m.targetColumn == "") && defaultGuardFails data then
    .error columnCountErrorMsg
  else
    let cols := resolveCols data m
    let folded := data.foldl (step cols.1 cols.2.1 cols.2.2) ([], [])
    .ok ⟨folded.1, folded.2⟩

/-- The source/target values (in per-row source-before-target order) of the
rows that pass the drop rule; node ids arise from exactly this list. -/
def valuesList (data : List Row) (m : Mapping) : List String :=
  (data.filter (keepRow (resolvedSrc data m) (resolvedTgt data m))).flatMap
    (fun r => [coerceCell (getField r (resolvedSrc data m)),
               coerceCell (getField r (resolvedTgt data m))])

/-- Append a value if it has not appeared yet. -/
def addFirst (acc : List String) (s : String) : List String :=
  if s ∈ acc then acc else acc ++ [s]

/-- The distinct values of a list in first-appearance order. -/
def firstAppearances (l : List String) : List String := l.foldl addFirst []

/-! ### File-upload handler -/

/-- The exact unsupported-format message shown by `handleFileUpload`. -/
def unsupportedFormatMsg : String :=
  "Currently only CSV files are supported. Please convert your data to CSV format."

/-- `name.toLowerCase().endsWith('.csv')` (ASCII lower-casing, which is all
`toLowerCase` does on file names made of ASCII characters). -/
def csvName (name : String) : Bool :=
  ".csv".data.isSuffixOf (name.data.map Char.toLower)

/-- The component state touched by `handleFileUpload`. -/
structure CompState where
  file : Option String
  data : Option (List Row)
  columns : List String
  graphData : Option GraphData
  loading : Bool
  error : Option String
deriving DecidableEq, Repr

/-- Outcome of the external CSV decoder (`Papa.parse` with headers), an
external collaborator: either the decoded rows plus the header fields, or a
decode failure message. -/
inductive ParseOutcome where
  | ok (rows : List Row) (fields : List String)
  | err (msg : String)
deriving DecidableEq, Repr

/-- `handleFileUpload`: records the file, rejects non-`.csv` names before
any decode, otherwise hands the text to the decoder.  The returned `Bool`
is true iff the decoder was invoked. -/
def handleFileUpload (st : CompState) (name : String) (outcome : ParseOutcome) :
    CompState × Bool :=
  let st1 := { st with file := some name, loading := true, error := none }
  if csvName name = false then
    ({ st1 with error := some unsupportedFormatMsg, loading := false }, false)
  else
    match outcome with
    | .ok rows fields =>
      if rows.length > 0 then
        ({ st1 with data := some rows, columns := fields, loading := false }, true)
      else
        ({ st1 with error := some "Failed to parse CSV file: No data found in file",
                    loading := false }, true)
    | .err m =>
      ({ st1 with error := some ("Failed to parse CSV file: " ++ m), loading := false }, true)

/-! ### Simulation tick clamp -/

/-- A simulated node position (coordinates as rationals; the claims about
the tick handler are order-theoretic, so exact arithmetic suffices). -/
structure SimPos where
  x : Rat
  y : Rat
deriving DecidableEq, Repr

/-- The per-node clamp of the tick handler:
`d.x = Math.max(20, Math.min(width - 20, d.x))` and likewise for `y`. -/
def clampPos (width height : Rat) (p : SimPos) : SimPos :=
  ⟨max 20 (min (width - 20) p.x), max 20 (min (height - 20) p.y)⟩

/-- The `graphData.nodes.forEach` clamp loop run by every tick handler. -/
def tickClamp (width height : Rat) (ps : List SimPos) : List SimPos :=
  ps.map (clampPos width height)

/-- `n` simulation ticks: each tick lets the force system move the nodes
arbitrarily (`force` is the unconstrained integration step) and then runs
the tick handler's clamp loop. -/
def runTicks (width height : Rat) (force : Nat → List SimPos → List SimPos) :
    Nat → List SimPos → List SimPos
  | 0, ps => ps
  | n + 1, ps => tickClamp width height (force n (runTicks width height force n ps))

/-! ### Node-fill colouring -/

/-- `d3.schemeCategory10`. -/
def schemeCategory10 : List String :=
  ["#1f77b4", "#ff7f0e", "#2ca02c", "#d62728", "#9467bd",
   "#8c564b", "#e377c2", "#7f7f7f", "#bcbd22", "#17becf"]

/-- One call of a `d3.scaleOrdinal(range)` scale on key `k` with the given
implicit `domain`: an unseen key is appended to the domain and mapped to
`range[index % range.length]` (d3's documented implicit-domain behaviour). -/
def scaleOrdinalCall (range : List String) (domain : List Nat) (k : Nat) :
    String × List Nat :=
  match domain.findIdx? (fun d => d == k) with
  | some i => (range.getD (i % range.length) "", domain)
  | none => (range.getD (domain.length % range.length) "", domain ++ [k])

/-- The node-circle fill accessor: it constructs a fresh
`d3.scaleOrdinal(d3.schemeCategory10)` for each node and applies it to the
node's group, so the scale's implicit domain is empty at every call. -/
def nodeFillColor (g : Nat) : String := (scaleOrdinalCall schemeCategory10 [] g).1

/-! ### Definitions taken from the spec's words (for counterexamples) -/

/-- Following the spec words of C4: "non-string values are coerced to their
string representation, and absent/null/empty values become the empty
string". -/
def specCoerce : JsValue → String
  | .null => ""
  | .str s => s
  | .num n => toString n
  | .bool b => if b then "true" else "false"

/-- Following the spec words of C5: "the number of distinct non-empty
coerced source-and-target values" of a row sequence, read over all rows. -/
def specDistinctCount (data : List Row) (srcCol tgtCol : Option String) : Nat :=
  ((data.flatMap
      (fun r => [coerceCell (getField r srcCol), coerceCell (getField r tgtCol)])).filter
    (fun s => s != "")).toFinset.card

/-! ### Concrete inputs -/

/-- A 2-field row `{col1: "Alice", col2: "Bob"}`. -/
def rowTwoCols : Row := [("col1", .str "Alice"), ("col2", .str "Bob")]

/-- A canonical sample row. -/
def rowStd : Row :=
  [("Source", .str "Alice"), ("RelationshipType", .str "Friend"), ("Target", .str "Bob")]

/-- The explicit mapping used by the standard sample data. -/
def mExplicit : Mapping := ⟨"Source", "Target", "RelationshipType"⟩

/-- A row whose source cell is the number `0` (falsy in JS). -/
def rowZeroSource : Row := [("s", .num 0), ("t", .str "Beth"), ("u", .str "x")]

/-- A row whose target cell is the empty string. -/
def rowEmptyTarget : Row := [("s", .str "A"), ("t", .str "")]

/-- Two rows whose ids first appear in the order B, C, A. -/
def rowsOrder : List Row :=
  [[("Source", .str "B"), ("RelationshipType", .str "x"), ("Target", .str "C")],
   [("Source", .str "A"), ("RelationshipType", .str "y"), ("Target", .str "B")]]

/-- Two identical self-loop rows. -/
def rowsSelfLoop : List Row :=
  [[("Source", .str "A"), ("RelationshipType", .str "likes"), ("Target", .str "A")],
   [("Source", .str "A"), ("RelationshipType", .str "likes"), ("Target", .str "A")]]

/-! ## Helper lemmas -/

lemma step_skip (s e t : Option String) (acc : List Node × List Link) (r : Row)
    (h : keepRow s t r = false) : step s e t acc r = acc := by
  simp only [keepRow, Bool.and_eq_false_iff, bne_eq_false_iff_eq] at h
  simp only [step]
  rcases h with h | h <;> simp [h]

lemma step_keep (s e t : Option String) (acc : List Node × List Link) (r : Row)
    (h : keepRow s t r = true) :
    step s e t acc r =
      (insertNode (insertNode acc.1 (coerceCell (getField r s))) (coerceCell (getField r t)),
       acc.2 ++ [mkLink s e t r]) := by
  simp only [keepRow, Bool.and_eq_true, bne_iff_ne, ne_eq] at h
  simp [step, mkLink, h.1, h.2]

lemma foldl_step_links (s e t : Option String) :
    ∀ (data : List Row) (acc : List Node × List Link),
      (data.foldl (step s e t) acc).2 = acc.2 ++ (data.filter (keepRow s t)).map (mkLink s e t) := by
  intro data
  induction data with
  | nil => intro acc; simp
  | cons r rest ih =>
    intro acc
    rcases hk : keepRow s t r with hf | ht
    · rw [List.foldl_cons, step_skip s e t acc r hk, ih, List.filter_cons_of_neg (by simp [hk])]
    · rw [List.foldl_cons, step_keep s e t acc r hk, ih, List.filter_cons_of_pos (by simp [hk])]
      simp

lemma foldl_step_nodes (s e t : Option String) :
    ∀ (data : List Row) (acc : List Node × List Link),
      (data.foldl (step s e t) acc).1 =
        (data.filter (keepRow s t)).foldl
          (fun ns r => insertNode (insertNode ns (coerceCell (getField r s)))
                                  (coerceCell (getField r t))) acc.1 := by
  intro data
  induction data with
  | nil => intro acc; simp
  | cons r rest ih =>
    intro acc
    rcases hk : keepRow s t r with hf | ht
    · rw [List.foldl_cons, step_skip s e t acc r hk, ih, List.filter_cons_of_neg (by simp [hk])]
    · rw [List.foldl_cons, step_keep s e t acc r hk, ih, List.filter_cons_of_pos (by simp [hk]),
        List.foldl_cons]

lemma foldl_pair_flatMap {β : Type} (g : β → String → β) (a b : Row → String) :
    ∀ (rows : List Row) (init : β),
      rows.foldl (fun ns r => g (g ns (a r)) (b r)) init =
        (rows.flatMap (fun r => [a r, b r])).foldl g init := by
  intro rows
  induction rows with
  | nil => intro init; rfl
  | cons r rest ih => intro init; simp [List.foldl_append, ih]

lemma insertNode_map_mk (acc : List String) (id : String) :
    insertNode (acc.map mkNode) id = (addFirst acc id).map mkNode := by
  have hcond : ((acc.map mkNode).any (fun n => n.id == id)) = decide (id ∈ acc) := by
    induction acc with
    | nil => simp
    | cons a rest ih =>
      simp only [List.map_cons, List.any_cons, ih, mkNode, List.mem_cons]
      by_cases h : a = id
      · simp [h]
      · have h1 : (a == id) = false := by simp [h]
        have h2 : decide (id = a) = false := decide_eq_false_iff_not.mpr (Ne.symm h)
        simp [h1, h2, h, Ne.symm h]
  by_cases h : id ∈ acc
  · simp [insertNode, addFirst, hcond, h]
  · simp [insertNode, addFirst, hcond, h, mkNode]

lemma foldl_insert_addFirst :
    ∀ (ids : List String) (acc : List String),
      ids.foldl insertNode (acc.map mkNode) = (ids.foldl addFirst acc).map mkNode := by
  intro ids
  induction ids with
  | nil => intro acc; rfl
  | cons i rest ih =>
    intro acc
    rw [List.foldl_cons, insertNode_map_mk, List.foldl_cons, ih]

lemma mem_foldl_addFirst (l : List String) :
    ∀ (acc : List String) (x : String), x ∈ l.foldl addFirst acc ↔ x ∈ acc ∨ x ∈ l := by
  induction l with
  | nil => simp
  | cons a t ih =>
    intro acc x
    rw [List.foldl_cons, ih]
    by_cases h : a ∈ acc
    · simp only [addFirst, if_pos h, List.mem_cons]
      constructor
      · tauto
      · rintro (hx | hx | hx)
        · tauto
        · subst hx; tauto
        · tauto
    · simp only [addFirst, if_neg h, List.mem_append, List.mem_singleton, List.mem_cons]
      tauto

lemma nodup_foldl_addFirst (l : List String) :
    ∀ (acc : List String), acc.Nodup → (l.foldl addFirst acc).Nodup := by
  induction l with
  | nil => intro acc h; simpa using h
  | cons a t ih =>
    intro acc h
    rw [List.foldl_cons]
    apply ih
    by_cases ha : a ∈ acc
    · simpa [addFirst, ha] using h
    · simp [addFirst, ha, List.nodup_append, h]

lemma firstAppearances_length (l : List String) :
    (firstAppearances l).length = l.toFinset.card := by
  have h1 : (firstAppearances l).Nodup := nodup_foldl_addFirst l [] (by simp)
  have h2 : (firstAppearances l).toFinset = l.toFinset := by
    ext x
    simp [List.mem_toFinset, firstAppearances, mem_foldl_addFirst]
  rw [← List.toFinset_card_of_nodup h1, h2]

lemma buildGraph_guard_true (data : List Row) (m : Mapping)
    (h : ((m.sourceColumn == "" && m.targetColumn == "") && defaultGuardFails data) = true) :
    buildGraph data m = .error columnCountErrorMsg := by
  simp [buildGraph, h]

lemma buildGraph_guard_false (data : List Row) (m : Mapping)
    (h : ((m.sourceColumn == "" && m.targetColumn == "") && defaultGuardFails data) = false) :
    buildGraph data m =
      .ok ⟨(data.foldl (step (resolvedSrc data m) (resolvedEdge data m) (resolvedTgt data m))
              ([], [])).1,
           (data.foldl (step (resolvedSrc data m) (resolvedEdge data m) (resolvedTgt data m))
              ([], [])).2⟩ := by
  simp [buildGraph, h, resolvedSrc, resolvedEdge, resolvedTgt]

lemma buildGraph_ok_elim (data : List Row) (m : Mapping) (g : GraphData)
    (h : buildGraph data m = .ok g) :
    g.nodes = (data.foldl (step (resolvedSrc data m) (resolvedEdge data m) (resolvedTgt data m))
                 ([], [])).1 ∧
    g.links = (data.foldl (step (resolvedSrc data m) (resolvedEdge data m) (resolvedTgt data m))
                 ([], [])).2 := by
  rcases hc : ((m.sourceColumn == "" && m.targetColumn == "") && defaultGuardFails data) with hf | ht
  · rw [buildGraph_guard_false data m hc] at h
    cases h
    exact ⟨rfl, rfl⟩
  · rw [buildGraph_guard_true data m hc] at h
    cases h

lemma buildGraph_links_eq (data : List Row) (m : Mapping) (g : GraphData)
    (h : buildGraph data m = .ok g) :
    g.links = (data.filter (keepRow (resolvedSrc data m) (resolvedTgt data m))).map
                (mkLink (resolvedSrc data m) (resolvedEdge data m) (resolvedTgt data m)) := by
  rw [(buildGraph_ok_elim data m g h).2, foldl_step_links]
  simp

lemma buildGraph_nodes_eq (data : List Row) (m : Mapping) (g : GraphData)
    (h : buildGraph data m = .ok g) :
    g.nodes = (firstAppearances (valuesList data m)).map mkNode := by
  rw [(buildGraph_ok_elim data m g h).1, foldl_step_nodes]
  have := foldl_pair_flatMap insertNode
    (fun r => coerceCell (getField r (resolvedSrc data m)))
    (fun r => coerceCell (getField r (resolvedTgt data m)))
    (data.filter (keepRow (resolvedSrc data m) (resolvedTgt data m))) []
  simp only [show ([] : List Node) = ([] : List String).map mkNode from rfl] at this ⊢
  rw [this, foldl_insert_addFirst]
  rfl

lemma resolveCols_explicit (data : List Row) (m : Mapping)
    (hs : m.sourceColumn ≠ "") (ht : m.targetColumn ≠ "") (he : m.edgeTypeColumn ≠ "") :
    resolveCols data m = (some m.sourceColumn, some m.edgeTypeColumn, some m.targetColumn) := by
  simp [resolveCols, hs, ht, he]

lemma toDigitsCore_length_gt (b : Nat) :
    ∀ (fuel n : Nat) (ds : List Char), ds.length < (Nat.toDigitsCore b (fuel + 1) n ds).length := by
  intro fuel
  induction fuel with
  | zero =>
    intro n ds
    simp only [Nat.toDigitsCore]
    split <;> simp [Nat.toDigitsCore]
  | succ f ih =>
    intro n ds
    rw [Nat.toDigitsCore]
    split
    · simp
    · calc ds.length < (Nat.digitChar (n % b) :: ds).length := by simp
        _ < _ := ih (n / b) (Nat.digitChar (n % b) :: ds)

lemma nat_repr_ne_empty (n : Nat) : Nat.repr n ≠ "" := by
  intro hcontra
  have hlen := toDigitsCore_length_gt 10 n n []
  have hdata : Nat.toDigits 10 n = [] := by
    have h2 := congrArg String.data hcontra
    exact h2
  rw [Nat.toDigits] at hdata
  rw [hdata] at hlen
  simp at hlen

lemma int_toString_ne_empty (n : Int) : toString n ≠ "" := by
  cases n with
  | ofNat m =>
    show Nat.repr m ≠ ""
    exact nat_repr_ne_empty m
  | negSucc m =>
    show ("-" ++ Nat.repr (m + 1)) ≠ ""
    intro h
    have h2 := congrArg String.data h
    simp only [String.data_append] at h2
    simp at h2

lemma coerceCell_empty_iff (v : JsValue) : coerceCell v = "" ↔ v.truthy = false := by
  cases v with
  | null => simp [coerceCell, JsValue.truthy]
  | str s =>
    by_cases h : s = "" <;> simp [coerceCell, JsValue.truthy, JsValue.toStr, h]
  | num n =>
    by_cases h : n = 0
    · simp [coerceCell, JsValue.truthy, h]
    · simp [coerceCell, JsValue.truthy, JsValue.toStr, h, int_toString_ne_empty n]
  | bool b => cases b <;> simp [coerceCell, JsValue.truthy, JsValue.toStr]

/-! ## Claim theorems -/

/-- C1, counterexample: with the source column explicitly set, the target
column unset and a 2-field first row, the build succeeds (publishing an
empty graph) instead of failing — the resolver applies the column-count
guard only when BOTH source and target are unset, so the claim's "for every
data state in which at least one of source/target is unset and the first
row has fewer than 3 fields, the build fails" is false on this input. -/
theorem C1_counterexample :
    buildGraph [rowTwoCols] ⟨"col1", "", ""⟩ = .ok ⟨[], []⟩
    ∧ (Row.keys rowTwoCols).length < 3
    ∧ (Mapping.mk "col1" "" "").targetColumn = "" := by
  refine ⟨rfl, by decide, rfl⟩

/-- C1, amended: default mode (and with it the column-count guard) applies
exactly when both the source and the target selections are unset; the build
fails with the column-count error iff it is in default mode and the first
row is missing or has fewer than 3 fields; in every other state the build
succeeds.  An explicitly set source/target column is used verbatim, an
unset one falls back to the positional first/third column name (with no
guard when the other one is set). -/
theorem C1_amended_resolution (data : List Row) (m : Mapping) :
    (buildGraph data m = .error columnCountErrorMsg ↔
      (m.sourceColumn = "" ∧ m.targetColumn = "" ∧ defaultGuardFails data = true))
    ∧ (¬(m.sourceColumn = "" ∧ m.targetColumn = "" ∧ defaultGuardFails data = true) →
        ∃ g, buildGraph data m = .ok g)
    ∧ (m.sourceColumn ≠ "" → resolvedSrc data m = some m.sourceColumn)
    ∧ (m.targetColumn ≠ "" → resolvedTgt data m = some m.targetColumn)
    ∧ (m.sourceColumn = "" → resolvedSrc data m = (colNamesOf data)[0]?)
    ∧ (m.targetColumn = "" → resolvedTgt data m = (colNamesOf data)[2]?) := by
  have hbool : (((m.sourceColumn == "" && m.targetColumn == "") && defaultGuardFails data) = true)
      ↔ (m.sourceColumn = "" ∧ m.targetColumn = "" ∧ defaultGuardFails data = true) := by
    simp [Bool.and_eq_true, and_assoc]
  refine ⟨?_, ?_, ?_, ?_, ?_, ?_⟩
  · constructor
    · intro h
      rcases hc : ((m.sourceColumn == "" && m.targetColumn == "") && defaultGuardFails data) with
        hf | ht
      · rw [buildGraph_guard_false data m hc] at h
        cases h
      · exact hbool.mp hc
    · intro h
      exact buildGraph_guard_true data m (hbool.mpr h)
  · intro h
    have hc : ((m.sourceColumn == "" && m.targetColumn == "") && defaultGuardFails data) = false := by
      rcases hc : ((m.sourceColumn == "" && m.targetColumn == "") && defaultGuardFails data) with
        hf | ht
      · rfl
      · exact absurd (hbool.mp hc) h
    exact ⟨_, buildGraph_guard_false data m hc⟩
  · intro h; simp [resolvedSrc, resolveCols, h]
  · intro h; simp [resolvedTgt, resolveCols, h]
  · intro h; simp [resolvedSrc, resolveCols, h]
  · intro h; simp [resolvedTgt, resolveCols, h]

/-- C1, witness: with both columns explicitly set the build never raises
the column-count error and the selections are used verbatim. -/
theorem C1_witness :
    (∃ g, buildGraph [rowStd] mExplicit = .ok g)
    ∧ resolvedSrc [rowStd] mExplicit = some "Source"
    ∧ resolvedTgt [rowStd] mExplicit = some "Target" := by
  have h := C1_amended_resolution [rowStd] mExplicit
  exact ⟨h.2.1 (by decide), h.2.2.1 (by decide), h.2.2.2.1 (by decide)⟩

/-- C2: with neither source nor target selected and a first row of fewer
than 3 fields, the build fails with the exact column-count message and no
GraphModel is published. -/
theorem C2_column_count_guard (data : List Row) (m : Mapping) (r : Row)
    (h1 : m.sourceColumn = "") (h2 : m.targetColumn = "")
    (h3 : data.head? = some r) (h4 : r.keys.length < 3) :
    buildGraph data m = .error columnCountErrorMsg
    ∧ ∀ g : GraphData, buildGraph data m ≠ .ok g := by
  have hg : defaultGuardFails data = true := by
    simp [defaultGuardFails, h3, h4]
  have herr : buildGraph data m = .error columnCountErrorMsg :=
    buildGraph_guard_true data m (by simp [h1, h2, hg])
  refine ⟨herr, fun g hgg => ?_⟩
  rw [herr] at hgg
  cases hgg

/-- C2, witness: the spec's own scenario, a single 2-field row with no
mapping selected. -/
theorem C2_witness :
    buildGraph [rowTwoCols] ⟨"", "", ""⟩ = .error columnCountErrorMsg :=
  (C2_column_count_guard [rowTwoCols] ⟨"", "", ""⟩ rowTwoCols rfl rfl rfl (by decide)).1

/-- C3, counterexample: source and target explicitly mapped, type column
unselected — the claim says every edge then gets the sentinel type
"default", but the code falls back to the second column positionally and
produces type "Friend". -/
theorem C3_counterexample :
    buildGraph [rowStd] ⟨"Source", "Target", ""⟩ =
      .ok ⟨[⟨"Alice", 1⟩, ⟨"Bob", 2⟩], [⟨"Alice", "Bob", "Friend", 1⟩]⟩
    ∧ ("Friend" : String) ≠ "default" := by
  refine ⟨rfl, by decide⟩

/-- C3, amended: each kept row's edge type is read from the resolved type
column — the explicitly selected column when one is set, otherwise the
SECOND column of the first row positionally (even when source and target
are explicitly set) — and the sentinel "default" is used exactly when that
cell is falsy (absent/null/empty/0/false); a truthy cell is coerced with
String(...). -/
theorem C3_amended_edge_type (data : List Row) (m : Mapping) (g : GraphData)
    (h : buildGraph data m = .ok g) :
    (g.links.map Link.type =
      (data.filter (keepRow (resolvedSrc data m) (resolvedTgt data m))).map
        (fun r => edgeTypeOf (getField r (resolvedEdge data m))))
    ∧ (m.edgeTypeColumn ≠ "" → resolvedEdge data m = some m.edgeTypeColumn)
    ∧ (m.edgeTypeColumn = "" → resolvedEdge data m = (colNamesOf data)[1]?)
    ∧ (∀ v : JsValue, v.truthy = false → edgeTypeOf v = "default")
    ∧ (∀ v : JsValue, v.truthy = true → edgeTypeOf v = v.toStr) := by
  refine ⟨?_, ?_, ?_, ?_, ?_⟩
  · rw [buildGraph_links_eq data m g h, List.map_map]
    rfl
  · intro hm; simp [resolvedEdge, resolveCols, hm]
  · intro hm; simp [resolvedEdge, resolveCols, hm]
  · intro v hv; simp [edgeTypeOf, hv]
  · intro v hv; simp [edgeTypeOf, hv]

/-- C3, witness: with the type column explicitly selected the types of the
produced edges are the coerced cells of that column. -/
theorem C3_witness :
    ((GraphData.mk [⟨"Alice", 1⟩, ⟨"Bob", 2⟩] [⟨"Alice", "Bob", "Friend", 1⟩]).links.map
        Link.type =
      ([rowStd].filter (keepRow (resolvedSrc [rowStd] mExplicit) (resolvedTgt [rowStd] mExplicit))).map
        (fun r => edgeTypeOf (getField r (resolvedEdge [rowStd] mExplicit))))
    ∧ resolvedEdge [rowStd] mExplicit = some "RelationshipType" := by
  have h := C3_amended_edge_type [rowStd] mExplicit
    ⟨[⟨"Alice", 1⟩, ⟨"Bob", 2⟩], [⟨"Alice", "Bob", "Friend", 1⟩]⟩ rfl
  exact ⟨h.1, h.2.1 (by decide)⟩

/-- C4, counterexample: a row whose source cell is the number 0.  Per the
claim's coercion ("non-string values are coerced to their string
representation") the source would be the non-empty string "0" and the row
would contribute an edge; the code treats every falsy cell as empty, drops
the row, and publishes an empty graph. -/
theorem C4_counterexample :
    buildGraph [rowZeroSource] ⟨"s", "t", "u"⟩ = .ok ⟨[], []⟩
    ∧ specCoerce (.num 0) = "0"
    ∧ specCoerce (.str "Beth") = "Beth" := by
  refine ⟨rfl, rfl, rfl⟩

/-- C4, amended: a cell coerces to the empty string exactly when it is
falsy (absent/null/empty string/0/false; truthy values keep their String(...)
form), and a row whose coerced source or target is empty is skipped
entirely — removing it from the data leaves the published graph unchanged
(stated under an all-explicit mapping so that removing the row cannot
change the positional column resolution). -/
theorem C4_amended_drop_rule (m : Mapping)
    (hs : m.sourceColumn ≠ "") (ht : m.targetColumn ≠ "") (he : m.edgeTypeColumn ≠ "")
    (pre post : List Row) (r : Row)
    (hr : keepRow (some m.sourceColumn) (some m.targetColumn) r = false) :
    buildGraph (pre ++ r :: post) m = buildGraph (pre ++ post) m
    ∧ ∀ v : JsValue, (coerceCell v = "" ↔ v.truthy = false) := by
  constructor
  · have hcond : (m.sourceColumn == "" && m.targetColumn == "") = false := by
      simp [hs, ht]
    have hc1 : (((m.sourceColumn == "" && m.targetColumn == "") &&
        defaultGuardFails (pre ++ r :: post)) = false) := by simp [hcond]
    have hc2 : (((m.sourceColumn == "" && m.targetColumn == "") &&
        defaultGuardFails (pre ++ post)) = false) := by simp [hcond]
    rw [buildGraph_guard_false _ m hc1, buildGraph_guard_false _ m hc2]
    have hr1 : resolveCols (pre ++ r :: post) m =
        (some m.sourceColumn, some m.edgeTypeColumn, some m.targetColumn) :=
      resolveCols_explicit _ m hs ht he
    have hr2 : resolveCols (pre ++ post) m =
        (some m.sourceColumn, some m.edgeTypeColumn, some m.targetColumn) :=
      resolveCols_explicit _ m hs ht he
    have e1 : resolvedSrc (pre ++ r :: post) m = some m.sourceColumn := by
      simp [resolvedSrc, hr1]
    have e2 : resolvedEdge (pre ++ r :: post) m = some m.edgeTypeColumn := by
      simp [resolvedEdge, hr1]
    have e3 : resolvedTgt (pre ++ r :: post) m = some m.targetColumn := by
      simp [resolvedTgt, hr1]
    have f1 : resolvedSrc (pre ++ post) m = some m.sourceColumn := by
      simp [resolvedSrc, hr2]
    have f2 : resolvedEdge (pre ++ post) m = some m.edgeTypeColumn := by
      simp [resolvedEdge, hr2]
    have f3 : resolvedTgt (pre ++ post) m = some m.targetColumn := by
      simp [resolvedTgt, hr2]
    rw [e1, e2, e3, f1, f2, f3]
    rw [List.foldl_append, List.foldl_append, List.foldl_cons,
      step_skip _ _ _ _ r hr]
  · exact coerceCell_empty_iff

/-- C4, witness: a row with an empty target contributes nothing, and the
falsy number 0 coerces to the empty string. -/
theorem C4_witness :
    buildGraph [rowEmptyTarget] ⟨"s", "t", "u"⟩ = buildGraph [] ⟨"s", "t", "u"⟩
    ∧ (coerceCell (.num 0) = "" ↔ (JsValue.num 0).truthy = false) := by
  have h := C4_amended_drop_rule ⟨"s", "t", "u"⟩ (by decide) (by decide) (by decide)
    [] [] rowEmptyTarget (by decide)
  exact ⟨h.1, h.2 (.num 0)⟩

/-- C5, counterexample: a row with source "A" and an empty target is
dropped, so the graph has 0 nodes, while the claim's count — the number of
distinct non-empty coerced source-and-target values of the row sequence —
is 1 ("A" is a non-empty source value). -/
theorem C5_counterexample :
    buildGraph [rowEmptyTarget] ⟨"s", "t", ""⟩ = .ok ⟨[], []⟩
    ∧ specDistinctCount [rowEmptyTarget] (some "s") (some "t") = 1 := by
  refine ⟨rfl, by decide⟩

/-- C5, amended: the node count equals the number of distinct source/target
values of the rows that pass the drop rule (both cells non-empty); node ids
are pairwise distinct (insertion is idempotent by id), and every node's
group is charCode(id[0]) mod 5 + 1 — a pure function of the id, hence
identical across rebuilds — lying in 1..5. -/
theorem C5_amended_node_dedup (data : List Row) (m : Mapping) (g : GraphData)
    (h : buildGraph data m = .ok g) :
    g.nodes.length = (valuesList data m).toFinset.card
    ∧ (g.nodes.map Node.id).Nodup
    ∧ ∀ n ∈ g.nodes, n.group = groupOf n.id ∧ 1 ≤ n.group ∧ n.group ≤ 5 := by
  have hn := buildGraph_nodes_eq data m g h
  have hids : g.nodes.map Node.id = firstAppearances (valuesList data m) := by
    rw [hn, List.map_map]
    have : (Node.id ∘ mkNode) = id := by
      funext x; rfl
    rw [this, List.map_id]
  refine ⟨?_, ?_, ?_⟩
  · rw [hn, List.length_map, firstAppearances_length]
  · rw [hids]
    exact nodup_foldl_addFirst _ [] (by simp)
  · intro n hnmem
    rw [hn] at hnmem
    rcases List.mem_map.mp hnmem with ⟨x, _, rfl⟩
    refine ⟨rfl, Nat.le_add_left 1 _, ?_⟩
    have : charCodeAt0 x % 5 < 5 := Nat.mod_lt _ (by norm_num)
    simp only [mkNode, groupOf]
    omega

/-- C5, witness: two rows over three distinct ids give node count 3. -/
theorem C5_witness :
    (GraphData.mk [⟨"B", 2⟩, ⟨"C", 3⟩, ⟨"A", 1⟩]
        [⟨"B", "C", "x", 1⟩, ⟨"A", "B", "y", 1⟩]).nodes.length
      = (valuesList rowsOrder mExplicit).toFinset.card :=
  (C5_amended_node_dedup rowsOrder mExplicit
    ⟨[⟨"B", 2⟩, ⟨"C", 3⟩, ⟨"A", 1⟩], [⟨"B", "C", "x", 1⟩, ⟨"A", "B", "y", 1⟩]⟩ rfl).1

/-- C6: the published edge list is exactly the kept rows, in row order,
mapped to their links — so every non-dropped row yields exactly one edge,
parallel/duplicate edges and self-loops are retained as-is, and every edge
carries weight 1. -/
theorem C6_edge_list (data : List Row) (m : Mapping) (g : GraphData)
    (h : buildGraph data m = .ok g) :
    g.links = (data.filter (keepRow (resolvedSrc data m) (resolvedTgt data m))).map
                (mkLink (resolvedSrc data m) (resolvedEdge data m) (resolvedTgt data m))
    ∧ ∀ l ∈ g.links, l.value = 1 := by
  have hl := buildGraph_links_eq data m g h
  refine ⟨hl, fun l hlmem => ?_⟩
  rw [hl] at hlmem
  rcases List.mem_map.mp hlmem with ⟨r, _, rfl⟩
  rfl

/-- C6, witness: two identical self-loop rows produce two identical
self-loop edges (no dedup, self-loops permitted). -/
theorem C6_witness :
    (GraphData.mk [⟨"A", 1⟩]
        [⟨"A", "A", "likes", 1⟩, ⟨"A", "A", "likes", 1⟩]).links
      = (rowsSelfLoop.filter
          (keepRow (resolvedSrc rowsSelfLoop mExplicit) (resolvedTgt rowsSelfLoop mExplicit))).map
          (mkLink (resolvedSrc rowsSelfLoop mExplicit) (resolvedEdge rowsSelfLoop mExplicit)
            (resolvedTgt rowsSelfLoop mExplicit)) :=
  (C6_edge_list rowsSelfLoop mExplicit
    ⟨[⟨"A", 1⟩], [⟨"A", "A", "likes", 1⟩, ⟨"A", "A", "likes", 1⟩]⟩ rfl).1

/-- C7 (code bug): the fill accessor constructs a fresh ordinal scale per
node, so its implicit domain is empty at every call and EVERY node receives
the first palette entry — the fill is constant, not keyed by the group
bucket, although "Alice" and "Bob" lie in different buckets (the
intent, per the code's own comment "Different color for each letter
group", is a bucket-keyed colour). -/
theorem C7_node_fill_constant :
    (∀ g1 g2 : Nat, nodeFillColor g1 = nodeFillColor g2)
    ∧ nodeFillColor (groupOf "Alice") = "#1f77b4"
    ∧ nodeFillColor (groupOf "Bob") = "#1f77b4"
    ∧ groupOf "Alice" ≠ groupOf "Bob" := by
  refine ⟨fun g1 g2 => rfl, rfl, rfl, by decide⟩

/-- C8: uploading a file whose lower-cased name does not end in ".csv"
sets exactly the unsupported-format message, leaves rows/columns/graph
unchanged, clears the loading flag, and never invokes the decoder. -/
theorem C8_unsupported_extension (st : CompState) (name : String) (outcome : ParseOutcome)
    (h : csvName name = false) :
    (handleFileUpload st name outcome).1.error = some unsupportedFormatMsg
    ∧ (handleFileUpload st name outcome).1.data = st.data
    ∧ (handleFileUpload st name outcome).1.columns = st.columns
    ∧ (handleFileUpload st name outcome).1.graphData = st.graphData
    ∧ (handleFileUpload st name outcome).1.loading = false
    ∧ (handleFileUpload st name outcome).2 = false := by
  simp [handleFileUpload, h]

/-- C8, witness: the spec's scenario, a file named "test.txt". -/
theorem C8_witness :
    (handleFileUpload ⟨none, none, [], none, false, none⟩ "test.txt" (.err "x")).1.error
      = some unsupportedFormatMsg
    ∧ (handleFileUpload ⟨none, none, [], none, false, none⟩ "test.txt" (.err "x")).2 = false := by
  have h := C8_unsupported_extension ⟨none, none, [], none, false, none⟩ "test.txt"
    (.err "x") (by decide)
  exact ⟨h.1, h.2.2.2.2.2⟩

/-- C9: after any positive number of ticks — each tick being an arbitrary
force update followed by the tick handler's clamp loop — every node
position lies within the 20-unit inset of the canvas on both axes
(for a canvas at least 40 units wide and tall, so that the inset interval
is non-empty; the component uses height 700 and the container's width). -/
theorem C9_bounds_invariant (width height : Rat) (force : Nat → List SimPos → List SimPos)
    (n : Nat) (ps : List SimPos) (hw : 40 ≤ width) (hh : 40 ≤ height) (hn : 1 ≤ n) :
    ∀ p ∈ runTicks width height force n ps,
      20 ≤ p.x ∧ p.x ≤ width - 20 ∧ 20 ≤ p.y ∧ p.y ≤ height - 20 := by
  cases n with
  | zero => exact absurd hn (by norm_num)
  | succ k =>
    intro p hp
    simp only [runTicks, tickClamp, List.mem_map] at hp
    rcases hp with ⟨q, _, rfl⟩
    simp only [clampPos]
    refine ⟨le_max_left _ _, ?_, le_max_left _ _, ?_⟩
    · apply max_le (by linarith) (min_le_left _ _)
    · apply max_le (by linarith) (min_le_left _ _)

/-- C9, witness: one tick on a 500 by 700 canvas clamps the out-of-bounds
position (0, 10000) to (20, 680), which satisfies all four bounds. -/
theorem C9_witness :
    20 ≤ (SimPos.mk 20 680).x ∧ (SimPos.mk 20 680).x ≤ 500 - 20
    ∧ 20 ≤ (SimPos.mk 20 680).y ∧ (SimPos.mk 20 680).y ≤ 700 - 20 := by
  have hmem : (SimPos.mk 20 680) ∈
      runTicks 500 700 (fun _ ps => ps) 1 [⟨0, 10000⟩] := by
    have : runTicks 500 700 (fun _ ps => ps) 1 [(⟨0, 10000⟩ : SimPos)]
        = [⟨20, 680⟩] := by
      simp only [runTicks, tickClamp, List.map, clampPos]
      norm_num
    rw [this]
    simp
  exact C9_bounds_invariant 500 700 (fun _ ps => ps) 1 [⟨0, 10000⟩]
    (by norm_num) (by norm_num) (by norm_num) ⟨20, 680⟩ hmem

/-- C10: the published node array is exactly the first appearances of the
kept rows' source/target ids (source before target within each row), each
paired with its group — a pure function of the row sequence and the
mapping, hence identical across rebuilds. -/
theorem C10_node_order (data : List Row) (m : Mapping) (g : GraphData)
    (h : buildGraph data m = .ok g) :
    g.nodes = (firstAppearances (valuesList data m)).map mkNode :=
  buildGraph_nodes_eq data m g h

/-- C10, witness: rows (B,C) then (A,B) enumerate nodes as B, C, A. -/
theorem C10_witness :
    (GraphData.mk [⟨"B", 2⟩, ⟨"C", 3⟩, ⟨"A", 1⟩]
        [⟨"B", "C", "x", 1⟩, ⟨"A", "B", "y", 1⟩]).nodes
      = (firstAppearances (valuesList rowsOrder mExplicit)).map mkNode :=
  C10_node_order rowsOrder mExplicit
    ⟨[⟨"B", 2⟩, ⟨"C", 3⟩, ⟨"A", 1⟩], [⟨"B", "C", "x", 1⟩, ⟨"A", "B", "y", 1⟩]⟩ rfl

end GV
